import Mathlib

/-!
Verification development for the single-document question-answering service
implemented in `app.py`.

The embedding models:
* the module-level state (`PDF_TEXT`, `API_TOKEN`) as an explicit
  `ServerState` record passed through each request;
* document loading (`extract_pdf_text`) as a total function over the two
  external facts it depends on: whether the path exists and what the
  extraction library produced (page texts, or a raised exception message);
* the two ways the module starts serving: the `__main__` branch, which calls
  `extract_pdf_text` once before `app.run`, and the serverless export
  (`handler = app`), which serves requests without ever calling it;
* the request handler `ask_question` as a function from the parsed JSON body
  to an outcome (an HTTP response or an escaped exception), together with the
  number of completion-API invocations performed and the post-request state;
* the external Together client as a behaviour record: what client
  construction does for a given API key, and what the completion call returns
  for a given prompt (a payload of choice contents, or a raised exception
  message).
-/

set_option autoImplicit false
set_option maxRecDepth 8192

namespace RupiniResume

/-- A parsed JSON value, as delivered by `request.json` for a request body.
Numbers are modelled as integers; no claim involves fractional numbers. -/
inductive Json where
  | null : Json
  | bool : Bool → Json
  | num : Int → Json
  | str : String → Json
  | arr : List Json → Json
  | obj : List (String × Json) → Json

/-- Python dictionary lookup `d.get(key)` on the field list of a JSON object:
the value of the first binding of `key`, if any. -/
def dictGet : List (String × Json) → String → Option Json
  | [], _ => none
  | (k, v) :: rest, key => if k = key then some v else dictGet rest key

/-- Python truthiness of a JSON value (`if not question:` in the handler):
`None`, `False`, `0`, the empty string, the empty list and the empty dict are
falsy; everything else is truthy. -/
def jsonTruthy : Json → Bool
  | .null => false
  | .bool b => b
  | .num n => n != 0
  | .str s => !(s == "")
  | .arr xs => !xs.isEmpty
  | .obj fs => !fs.isEmpty

mutual

/-- Python `str()` of a parsed JSON value, as interpolated by the handler
into the f-string prompt when the `question` field is not a string. -/
def pyRepr : Json → String
  | .null => "None"
  | .bool true => "True"
  | .bool false => "False"
  | .num n => toString n
  | .str s => "\x27" ++ s ++ "\x27"
  | .arr xs => "[" ++ pyReprItems xs ++ "]"
  | .obj fs => "\x7b" ++ pyReprFields fs ++ "\x7d"

/-- Comma-separated `repr` of list elements, for `pyRepr`. -/
def pyReprItems : List Json → String
  | [] => ""
  | [x] => pyRepr x
  | x :: y :: rest => pyRepr x ++ ", " ++ pyReprItems (y :: rest)

/-- Comma-separated `repr` of dict entries, for `pyRepr`. -/
def pyReprFields : List (String × Json) → String
  | [] => ""
  | [(k, v)] => "\x27" ++ k ++ "\x27: " ++ pyRepr v
  | (k, v) :: f :: rest =>
      "\x27" ++ k ++ "\x27: " ++ pyRepr v ++ ", " ++ pyReprFields (f :: rest)

end

/-- The string a truthy JSON value contributes to the f-string prompt: a
string interpolates verbatim, any other value via its Python `str()`. -/
def pyStr : Json → String
  | .str s => s
  | v => pyRepr v

/-- Result of the PDF-extraction attempt inside the `try` block of
`extract_pdf_text`: either the list of per-page texts produced by the
extraction library, or the message of the exception it raised. -/
inductive ExtractResult where
  | pages : List String → ExtractResult
  | raise : String → ExtractResult

/-- The sentinel stored when the document file does not exist. -/
def docNotFoundSentinel : String :=
  "Error: Document not found. Please ensure the PDF file exists in the \x27data\x27 directory."

/-- The fixed head of the sentinel stored when extraction raises; the
exception text is appended to it. -/
def procFailHead : String :=
  "Error: Failed to process the PDF document. "

/-- The function `extract_pdf_text(pdf_path)`: the value assigned to the
global `PDF_TEXT`. If the path does not exist, the not-found sentinel; if
extraction raises, the processing-failure sentinel carrying the exception
message; on success, the concatenation of all page texts with no added
separators. The function is total: no exception escapes to the caller. -/
def extract_pdf_text (pathExists : Bool) (ext : ExtractResult) : String :=
  if pathExists = false then
    docNotFoundSentinel
  else
    match ext with
    | .pages ps => String.join ps
    | .raise e => procFailHead ++ e

/-- How the module comes to serve requests: `main` is the
`if __name__ == \x27__main__\x27` branch (load the PDF, then `app.run`);
`serverless` is the module-import path that only exports `handler = app`. -/
inductive StartupMode where
  | main : StartupMode
  | serverless : StartupMode

/-- The observable result of startup: the value `PDF_TEXT` holds when the
app begins serving, and how many times `extract_pdf_text` ran. -/
structure StartupResult where
  pdfText : String
  loadCalls : Nat

/-- Module startup. Under `main`, `extract_pdf_text` runs exactly once
before `app.run`; under the serverless export, it never runs and `PDF_TEXT`
keeps its module-level initial value, the empty string. -/
def startup (mode : StartupMode) (pathExists : Bool) (ext : ExtractResult) :
    StartupResult :=
  match mode with
  | .main => ⟨extract_pdf_text pathExists ext, 1⟩
  | .serverless => ⟨"", 0⟩

/-- The fixed text of the prompt before the interpolated `PDF_TEXT`: the
persona instruction, the restriction to the resume text, the first-person
requirement, the fallback instruction with its example sentence, and the
resume-block label. -/
def personaHeader : String :=
  "You are Rupini Raman. Your personality is professional and helpful. " ++
  "Answer the following question based *only* on the information contained in your resume text provided below. " ++
  "You must speak in the first person (e.g., \x27I worked at...\x27, \x27My skills include...\x27). " ++
  "If the answer is not in your resume, politely state that the information is not available in your resume, for example: " ++
  "\x27That information is not something I\x27ve included in my resume.\x27\n\n" ++
  "--- MY RESUME TEXT ---\n"

/-- The fixed text of the prompt between the interpolated `PDF_TEXT` and the
interpolated question. -/
def questionHeader : String := "\n\n--- QUESTION ---\n"

/-- The example fallback sentence the prompt instructs the model to use when
the resume does not contain the answer. -/
def fallbackInstruction : String :=
  "That information is not something I\x27ve included in my resume."

/-- The prompt assembled by the handler: fixed header, then `PDF_TEXT`
verbatim, then the question label, then the question verbatim. -/
def buildPrompt (pdfText question : String) : String :=
  personaHeader ++ pdfText ++ questionHeader ++ question

/-- The `\x22Error:\x22 in PDF_TEXT` test guarding the handler: substring
containment, not a structured load-failure flag. -/
def containsErr (s : String) : Bool :=
  decide ("Error:".data <:+: s.data)

/-- The module-level state the handler reads: the loaded `PDF_TEXT` and the
`API_TOKEN` environment value (`none` when the variable is absent). -/
structure ServerState where
  pdfText : String
  apiToken : Option String

/-- What one call to the external completion endpoint produces inside the
`try` block: a successful response carrying the list of choice message
contents, or a raised exception message. -/
inductive CompletionOutcome where
  | payload : List String → CompletionOutcome
  | raise : String → CompletionOutcome

/-- Behaviour of the external Together library, treated as a black box:
`initError key` is `some msg` when `Together(api_key=key)` raises `msg`
during construction (e.g. no credential is available) and `none` when
construction succeeds; `complete prompt` is what the subsequent
`chat.completions.create` call produces. -/
structure TogetherEnv where
  initError : Option String → Option String
  complete : String → CompletionOutcome

/-- Outcome of one handler invocation: an HTTP response with a status code
and a JSON body, or an exception escaping the handler (the route body has no
`try` around reading the request). -/
inductive HandlerOutcome where
  | response : Nat → Json → HandlerOutcome
  | exn : HandlerOutcome

/-- Result of running `ask_question` once: the outcome delivered to the
client, the number of completion-API calls issued, and the module state
after the request. -/
structure AskResult where
  outcome : HandlerOutcome
  completionCalls : Nat
  finalState : ServerState

/-- The generic service-error message built in the `except` branch. -/
def svcErrMsg (e : String) : String :=
  "An error occurred while contacting the AI service: " ++ e

/-- The 400 validation body. -/
def noQuestionBody : Json := .obj [("error", .str "No question provided.")]

/-- The message of the `IndexError` raised by `response.choices[0]` when the
payload has no choices; it is caught by the same `except` branch. -/
def indexErrMsg : String := "list index out of range"

/-- The value bound to `question` by the handler: `data.get(\x27question\x27)`,
with a missing key yielding Python `None`. -/
def questionOf (fields : List (String × Json)) : Json :=
  (dictGet fields "question").getD .null

/-- Python `str.strip()`: remove leading and trailing whitespace. -/
def pyStrip (s : String) : String :=
  ⟨((s.data.dropWhile Char.isWhitespace).reverse.dropWhile
      Char.isWhitespace).reverse⟩

/-- The `/api/ask` route body. In source order: return the 500 sentinel echo
when `PDF_TEXT` contains `\x22Error:\x22`; read `request.json` and `.get` the
question, which raises (AttributeError) when the body is not a JSON object;
return the 400 validation error when the question is falsy; otherwise build
the prompt, construct the Together client, issue one completion call, and
map its outcome — trimmed first choice on success, the generic 500
service-error for any exception raised inside the `try` block. -/
def ask_question (st : ServerState) (env : TogetherEnv) (body : Json) :
    AskResult :=
  if containsErr st.pdfText then
    ⟨.response 500 (.obj [("answer", .str st.pdfText)]), 0, st⟩
  else
    match body with
    | .obj fields =>
      if jsonTruthy (questionOf fields) = false then
        ⟨.response 400 noQuestionBody, 0, st⟩
      else
        match env.initError st.apiToken with
        | some e => ⟨.response 500 (.obj [("answer", .str (svcErrMsg e))]), 0, st⟩
        | none =>
          match env.complete
              (buildPrompt st.pdfText (pyStr (questionOf fields))) with
          | .raise e =>
              ⟨.response 500 (.obj [("answer", .str (svcErrMsg e))]), 1, st⟩
          | .payload [] =>
              ⟨.response 500 (.obj [("answer", .str (svcErrMsg indexErrMsg))]), 1, st⟩
          | .payload (c :: _) =>
              ⟨.response 200 (.obj [("answer", .str (pyStrip c))]), 1, st⟩
    | _ => ⟨.exn, 0, st⟩

/-- Whether a JSON value is an object (a Python dict after parsing). -/
def isJsonObj : Json → Bool
  | .obj _ => true
  | _ => false

theorem containsErr_iff (s : String) :
    containsErr s = true ↔ "Error:".data <:+: s.data := by
  simp [containsErr]

theorem containsErr_procFail (e : String) :
    containsErr (procFailHead ++ e) = true := by
  rw [containsErr_iff, String.data_append]
  exact (List.IsPrefix.trans (by decide)
    (List.prefix_append procFailHead.data e.data)).isInfix

theorem containsErr_notFound : containsErr docNotFoundSentinel = true := by
  decide

/-- Every branch of the handler leaves the module state unchanged: the route
body contains no assignment to `PDF_TEXT` or `API_TOKEN`. -/
theorem ask_question_finalState (st : ServerState) (env : TogetherEnv)
    (body : Json) : (ask_question st env body).finalState = st := by
  unfold ask_question
  repeat (first | rfl | split)

/-- Every branch of the handler issues at most one completion call. -/
theorem ask_question_calls_le_one (st : ServerState) (env : TogetherEnv)
    (body : Json) : (ask_question st env body).completionCalls ≤ 1 := by
  unfold ask_question
  repeat (first | exact Nat.zero_le 1 | exact Nat.le_refl 1 | split)

/-- C1, counterexample. Under the serverless startup mode (`handler = app`
with the module imported rather than run as `__main__`), requests can be
served yet `extract_pdf_text` is never invoked: the load count is 0, not 1,
and `PDF_TEXT` remains the initial empty string, which is neither extracted
document text nor an error sentinel (it does not contain `Error:`). -/
theorem serverless_skips_load_counterexample :
    (startup .serverless true (.pages ["resume text"])).loadCalls ≠ 1 ∧
    (startup .serverless true (.pages ["resume text"])).pdfText = "" ∧
    containsErr (startup .serverless true (.pages ["resume text"])).pdfText
      = false := by
  exact ⟨by decide, rfl, by decide⟩

/-- C1, amended. Under the `__main__` startup mode, `PDF_TEXT` is set
exactly once before the app serves, to either a sentinel or the extracted
page text, and no request mutates the state afterwards; under the
serverless export mode (`handler = app`), `extract_pdf_text` never runs and
`PDF_TEXT` remains the initial empty string while requests are served. -/
theorem documentText_lifecycle (pe : Bool) (ext : ExtractResult)
    (st : ServerState) (env : TogetherEnv) (body : Json) :
    ((startup .main pe ext).loadCalls = 1 ∧
      ((startup .main pe ext).pdfText = docNotFoundSentinel ∨
       (∃ e, (startup .main pe ext).pdfText = procFailHead ++ e) ∨
       (∃ ps, (startup .main pe ext).pdfText = String.join ps))) ∧
    ((startup .serverless pe ext).loadCalls = 0 ∧
      (startup .serverless pe ext).pdfText = "") ∧
    (ask_question st env body).finalState = st := by
  refine ⟨⟨rfl, ?_⟩, ⟨rfl, rfl⟩, ask_question_finalState st env body⟩
  cases pe with
  | false => exact Or.inl rfl
  | true =>
    cases ext with
    | pages ps => exact Or.inr (Or.inr ⟨ps, rfl⟩)
    | raise e => exact Or.inr (Or.inl ⟨e, rfl⟩)

/-- C3, counterexample. When the path exists and extraction raises `boom`,
the produced sentinel is `Error: Failed to process the PDF document. boom`,
not the claimed exact text `Error: Failed to process the document. boom`. -/
theorem procFail_wording_counterexample :
    extract_pdf_text true (.raise "boom")
      ≠ "Error: Failed to process the document. boom" ∧
    extract_pdf_text true (.raise "boom")
      = "Error: Failed to process the PDF document. boom" := by
  exact ⟨by decide, rfl⟩

/-- C3, amended. Loading is total (no exception escapes): a missing path
produces the not-found sentinel, which begins with
`Error: Document not found.`; an extraction failure produces exactly
`Error: Failed to process the PDF document. <cause>` with the underlying
failure message appended; success produces the joined page text. -/
theorem extract_pdf_text_sentinels (pe : Bool) (ext : ExtractResult) :
    (pe = false → extract_pdf_text pe ext = docNotFoundSentinel) ∧
    (∀ e, pe = true → ext = .raise e →
        extract_pdf_text pe ext = procFailHead ++ e) ∧
    (∀ ps, pe = true → ext = .pages ps →
        extract_pdf_text pe ext = String.join ps) ∧
    "Error: Document not found.".data <+: docNotFoundSentinel.data := by
  refine ⟨?_, ?_, ?_, by decide⟩
  · rintro rfl; rfl
  · rintro e rfl rfl; rfl
  · rintro ps rfl rfl; rfl

/-- C3, witness for `extract_pdf_text_sentinels` at concrete inputs. -/
theorem extract_pdf_text_sentinels_witness :
    extract_pdf_text false (.pages ["x"]) = docNotFoundSentinel ∧
    extract_pdf_text true (.raise "boom") = procFailHead ++ "boom" := by
  exact ⟨(extract_pdf_text_sentinels false (.pages ["x"])).1 rfl,
    (extract_pdf_text_sentinels true (.raise "boom")).2.1 "boom" rfl rfl⟩

/-- A concrete Together behaviour for evaluations: construction succeeds and
every completion call returns one choice with content `  Hello.  `. -/
def envHello : TogetherEnv :=
  ⟨fun _ => none, fun _ => .payload ["  Hello.  "]⟩

/-- C2, counterexample. A whitespace-only question is truthy in Python
(`if not question:` does not fire), so with a loaded document the handler
does not return the 400 validation response: it proceeds to the completion
call (one upstream invocation) and returns its 200 answer. -/
theorem whitespace_question_counterexample :
    (ask_question ⟨"resume text", some "k"⟩ envHello
        (.obj [("question", .str " ")])).completionCalls = 1 ∧
    (ask_question ⟨"resume text", some "k"⟩ envHello
        (.obj [("question", .str " ")])).outcome =
      .response 200 (.obj [("answer", .str "Hello.")]) := by
  exact ⟨rfl, rfl⟩

/-- C2, amended. For JSON-object bodies, when `PDF_TEXT` does not contain
`Error:` (the sentinel check precedes validation), a missing or falsy —
in particular empty — `question` yields the 400 response
`error: No question provided.` with zero completion calls; whitespace-only
questions are truthy and are not rejected. -/
theorem missing_question_validation (st : ServerState) (env : TogetherEnv)
    (fields : List (String × Json))
    (hdoc : containsErr st.pdfText = false)
    (hq : jsonTruthy (questionOf fields) = false) :
    ask_question st env (.obj fields) =
      ⟨.response 400 noQuestionBody, 0, st⟩ := by
  simp [ask_question, hdoc, hq]

/-- C2, witness for `missing_question_validation`: an empty body object and
a body with an empty-string question both get the 400 response. -/
theorem missing_question_validation_witness :
    ask_question ⟨"resume text", some "k"⟩ envHello (.obj []) =
      ⟨.response 400 noQuestionBody, 0, ⟨"resume text", some "k"⟩⟩ ∧
    ask_question ⟨"resume text", some "k"⟩ envHello
        (.obj [("question", .str "")]) =
      ⟨.response 400 noQuestionBody, 0, ⟨"resume text", some "k"⟩⟩ := by
  exact ⟨missing_question_validation ⟨"resume text", some "k"⟩ envHello []
      (by decide) (by decide),
    missing_question_validation ⟨"resume text", some "k"⟩ envHello
      [("question", .str "")] (by decide) (by decide)⟩

/-- C5, confirmed. Whenever `PDF_TEXT` holds one of the two load-failure
sentinels, the handler returns 500 with the sentinel echoed as `answer` and
issues no completion call — for every request body, in particular for every
non-empty question. -/
theorem sentinel_short_circuits (st : ServerState) (env : TogetherEnv)
    (body : Json)
    (hsent : st.pdfText = docNotFoundSentinel ∨
      ∃ e, st.pdfText = procFailHead ++ e) :
    ask_question st env body =
      ⟨.response 500 (.obj [("answer", .str st.pdfText)]), 0, st⟩ := by
  have h : containsErr st.pdfText = true := by
    rcases hsent with h | ⟨e, h⟩
    · rw [h]; exact containsErr_notFound
    · rw [h]; exact containsErr_procFail e
  simp [ask_question, h]

/-- C5, witness for `sentinel_short_circuits` with the not-found sentinel
and a non-empty question. -/
theorem sentinel_short_circuits_witness :
    ask_question ⟨docNotFoundSentinel, some "k"⟩ envHello
        (.obj [("question", .str "x")]) =
      ⟨.response 500 (.obj [("answer", .str docNotFoundSentinel)]), 0,
        ⟨docNotFoundSentinel, some "k"⟩⟩ :=
  sentinel_short_circuits ⟨docNotFoundSentinel, some "k"⟩ envHello
    (.obj [("question", .str "x")]) (Or.inl rfl)

/-- C9, confirmed. Document-unavailable detection is the substring test
`Error: in PDF_TEXT`: for every `PDF_TEXT` containing that substring
anywhere — including legitimately loaded text — every request gets the 500
echo of the full `PDF_TEXT` and the completion API is never called. -/
theorem substring_detection (st : ServerState) (env : TogetherEnv)
    (body : Json) (h : containsErr st.pdfText = true) :
    ask_question st env body =
      ⟨.response 500 (.obj [("answer", .str st.pdfText)]), 0, st⟩ := by
  simp [ask_question, h]

/-- C9, witness for `substring_detection`: a successfully loaded resume text
that legitimately contains `Error:` is echoed with status 500 and no
completion call. -/
theorem substring_detection_witness :
    ask_question ⟨"Publications: Error: handling in Java", some "k"⟩ envHello
        (.obj [("question", .str "x")]) =
      ⟨.response 500
          (.obj [("answer", .str "Publications: Error: handling in Java")]),
        0, ⟨"Publications: Error: handling in Java", some "k"⟩⟩ :=
  substring_detection ⟨"Publications: Error: handling in Java", some "k"⟩
    envHello (.obj [("question", .str "x")]) (by decide)

/-- Number of positions of `s` at which `pat` occurs (occurrences may
overlap). -/
def countOccs (pat : List Char) : List Char → Nat
  | [] => if pat.isPrefixOf ([] : List Char) then 1 else 0
  | c :: rest =>
      (if pat.isPrefixOf (c :: rest) then 1 else 0) + countOccs pat rest

/-- Number of positions of `s` at which the string `pat` occurs. -/
def occCount (pat s : String) : Nat := countOccs pat.data s.data

theorem buildPrompt_data (d q : String) :
    (buildPrompt d q).data =
      personaHeader.data ++ (d.data ++ (questionHeader.data ++ q.data)) := by
  simp [buildPrompt]

/-- C4, counterexample. The prompt does not contain the literal question
exactly once for every non-empty question and non-error document text: with
document text `Resume text` and the non-empty question `a`, the letter `a`
also occurs throughout the fixed template, so the occurrence count is not
one. -/
theorem question_exactly_once_counterexample :
    "a" ≠ "" ∧ containsErr "Resume text" = false ∧
    occCount "a" (buildPrompt "Resume text" "a") ≠ 1 := by
  exact ⟨by decide, by decide, by decide⟩

/-- C4, amended. Prompt construction is deterministic (equal inputs give
byte-for-byte equal prompts), and the prompt contains the fallback
instruction sentence, the literal document text, and the literal question
each at least once; exact-once counting fails when an input also occurs
elsewhere in the prompt. -/
theorem prompt_contains_and_deterministic (d q d2 q2 : String)
    (hd : d = d2) (hq : q = q2) :
    fallbackInstruction.data <:+: (buildPrompt d q).data ∧
    d.data <:+: (buildPrompt d q).data ∧
    q.data <:+: (buildPrompt d q).data ∧
    buildPrompt d q = buildPrompt d2 q2 := by
  subst hd
  subst hq
  refine ⟨?_, ?_, ?_, rfl⟩
  · rw [buildPrompt_data]
    exact List.IsInfix.trans (by decide)
      (List.prefix_append personaHeader.data _).isInfix
  · rw [buildPrompt_data]
    exact List.infix_append' _ _ _
  · rw [buildPrompt_data]
    exact (((List.suffix_append _ _).trans
      (List.suffix_append _ _)).trans (List.suffix_append _ _)).isInfix

/-- C4, witness for `prompt_contains_and_deterministic` at concrete
inputs. -/
theorem prompt_contains_witness :
    fallbackInstruction.data
      <:+: (buildPrompt "Resume text" "What are your skills?").data ∧
    "Resume text".data
      <:+: (buildPrompt "Resume text" "What are your skills?").data ∧
    "What are your skills?".data
      <:+: (buildPrompt "Resume text" "What are your skills?").data ∧
    buildPrompt "Resume text" "What are your skills?" =
      buildPrompt "Resume text" "What are your skills?" :=
  prompt_contains_and_deterministic "Resume text" "What are your skills?"
    "Resume text" "What are your skills?" rfl rfl

/-- A Together behaviour in which construction raises `boom` when no
credential is supplied (as the real client does when neither the argument
nor its own environment variable provides a key) and succeeds otherwise. -/
def envAuthBoom : TogetherEnv :=
  ⟨fun k => match k with | none => some "boom" | some _ => none,
    fun _ => .payload ["unreached"]⟩

/-- A Together behaviour in which construction succeeds and the completion
call raises `boom`. -/
def envProviderBoom : TogetherEnv :=
  ⟨fun _ => none, fun _ => .raise "boom"⟩

/-- C6, counterexample. The handler has no distinct AuthMissing report: with
the credential absent and client construction raising `boom`, the HTTP
response is byte-for-byte the one produced with a credential present and the
provider call raising `boom` — both land in the same generic `except`
branch. -/
theorem authMissing_not_distinct_counterexample :
    (ask_question ⟨"resume text", none⟩ envAuthBoom
        (.obj [("question", .str "x")])).outcome =
      (ask_question ⟨"resume text", some "k"⟩ envProviderBoom
        (.obj [("question", .str "x")])).outcome ∧
    (ask_question ⟨"resume text", none⟩ envAuthBoom
        (.obj [("question", .str "x")])).outcome =
      .response 500 (.obj [("answer", .str (svcErrMsg "boom"))]) := by
  exact ⟨rfl, rfl⟩

/-- C6, amended. When the credential is absent and client construction
raises, the handler issues no completion call (the failure precedes any
upstream request) and returns the generic 500 service-error embedding the
cause — via the same exception-to-JSON path used for provider errors,
with no distinct AuthMissing kind. -/
theorem authMissing_generic_path (st : ServerState) (env : TogetherEnv)
    (fields : List (String × Json)) (e : String)
    (hdoc : containsErr st.pdfText = false)
    (hq : jsonTruthy (questionOf fields) = true)
    (htok : st.apiToken = none)
    (hinit : env.initError none = some e) :
    ask_question st env (.obj fields) =
      ⟨.response 500 (.obj [("answer", .str (svcErrMsg e))]), 0, st⟩ := by
  simp [ask_question, hdoc, hq, htok, hinit]

/-- C6, witness for `authMissing_generic_path` at concrete inputs. -/
theorem authMissing_generic_path_witness :
    ask_question ⟨"resume text", none⟩ envAuthBoom
        (.obj [("question", .str "x")]) =
      ⟨.response 500 (.obj [("answer", .str (svcErrMsg "boom"))]), 0,
        ⟨"resume text", none⟩⟩ :=
  authMissing_generic_path ⟨"resume text", none⟩ envAuthBoom
    [("question", .str "x")] "boom" (by decide) (by decide) rfl rfl

/-- C7, confirmed. When the completion call raises, the handler returns the
generic 500 whose message embeds the underlying cause, issues exactly one
upstream call (never retrying), and leaves the module state unchanged, so a
subsequent independent request whose completion call succeeds still gets its
200 answer. (`ask_question_calls_le_one` proves the at-most-one-attempt
bound for every request.) -/
theorem provider_failure_isolated (st : ServerState) (env : TogetherEnv)
    (fields fields2 : List (String × Json)) (q q2 e ans : String)
    (hdoc : containsErr st.pdfText = false)
    (hq : dictGet fields "question" = some (.str q)) (hq0 : q ≠ "")
    (hinit : env.initError st.apiToken = none)
    (hfail : env.complete (buildPrompt st.pdfText q) = .raise e)
    (hq2 : dictGet fields2 "question" = some (.str q2)) (hq20 : q2 ≠ "")
    (hok : env.complete (buildPrompt st.pdfText q2) = .payload [ans]) :
    ask_question st env (.obj fields) =
      ⟨.response 500 (.obj [("answer", .str (svcErrMsg e))]), 1, st⟩ ∧
    e.data <:+: (svcErrMsg e).data ∧
    ask_question (ask_question st env (.obj fields)).finalState env
        (.obj fields2) =
      ⟨.response 200 (.obj [("answer", .str (pyStrip ans))]), 1, st⟩ := by
  refine ⟨?_, ?_, ?_⟩
  · simp [ask_question, questionOf, jsonTruthy, pyStr, hdoc, hq, hq0,
      hinit, hfail]
  · exact ⟨"An error occurred while contacting the AI service: ".data, [],
      by simp [svcErrMsg]⟩
  · rw [ask_question_finalState]
    simp [ask_question, questionOf, jsonTruthy, pyStr, hdoc, hq2, hq20,
      hinit, hok]

/-- A Together behaviour that fails on the first witness question and
succeeds on the second. -/
def envFlaky : TogetherEnv :=
  ⟨fun _ => none,
    fun p => if p = buildPrompt "resume text" "second" then
        .payload [" fine "]
      else .raise "boom"⟩

/-- C7, witness for `provider_failure_isolated`: a failing request followed
by a succeeding one against the unchanged state. -/
theorem provider_failure_isolated_witness :
    ask_question ⟨"resume text", some "k"⟩ envFlaky
        (.obj [("question", .str "first")]) =
      ⟨.response 500 (.obj [("answer", .str (svcErrMsg "boom"))]), 1,
        ⟨"resume text", some "k"⟩⟩ ∧
    "boom".data <:+: (svcErrMsg "boom").data ∧
    ask_question (ask_question ⟨"resume text", some "k"⟩ envFlaky
          (.obj [("question", .str "first")])).finalState envFlaky
        (.obj [("question", .str "second")]) =
      ⟨.response 200 (.obj [("answer", .str (pyStrip " fine "))]), 1,
        ⟨"resume text", some "k"⟩⟩ :=
  provider_failure_isolated ⟨"resume text", some "k"⟩ envFlaky
    [("question", .str "first")] [("question", .str "second")]
    "first" "second" "boom" " fine " (by decide) rfl (by decide) rfl rfl
    rfl (by decide) rfl

/-- C8, confirmed. On a successful completion payload the handler returns
200 with the first choice content stripped of leading and trailing
whitespace as the `answer`. -/
theorem success_trims_first_choice (st : ServerState) (env : TogetherEnv)
    (fields : List (String × Json)) (q c : String) (rest : List String)
    (hdoc : containsErr st.pdfText = false)
    (hq : dictGet fields "question" = some (.str q)) (hq0 : q ≠ "")
    (hinit : env.initError st.apiToken = none)
    (hok : env.complete (buildPrompt st.pdfText q) = .payload (c :: rest)) :
    ask_question st env (.obj fields) =
      ⟨.response 200 (.obj [("answer", .str (pyStrip c))]), 1, st⟩ := by
  simp [ask_question, questionOf, jsonTruthy, pyStr, hdoc, hq, hq0,
    hinit, hok]

/-- C8, witness for `success_trims_first_choice`: content `  Hello.  `
yields the answer `Hello.`. -/
theorem success_trims_first_choice_witness :
    ask_question ⟨"resume text", some "k"⟩ envHello
        (.obj [("question", .str "x")]) =
      ⟨.response 200 (.obj [("answer", .str "Hello.")]), 1,
        ⟨"resume text", some "k"⟩⟩ := by
  have h := success_trims_first_choice ⟨"resume text", some "k"⟩ envHello
    [("question", .str "x")] "x" "  Hello.  " [] (by decide) rfl
    (by decide) rfl rfl
  exact h

/-- C10, confirmed. For a body that parses to a JSON value other than an
object, the handler never produces the 400 validation response: when
`PDF_TEXT` is free of `Error:`, the `.get` attribute access on the parsed
body raises and the exception escapes the handler; otherwise the 500
sentinel echo is returned before the body is read. -/
theorem non_object_body_raises (st : ServerState) (env : TogetherEnv)
    (body : Json) (hobj : isJsonObj body = false) :
    (containsErr st.pdfText = false →
      ask_question st env body = ⟨.exn, 0, st⟩) ∧
    ((ask_question st env body).outcome = .exn ∨
      (ask_question st env body).outcome =
        .response 500 (.obj [("answer", .str st.pdfText)])) := by
  constructor
  · intro hdoc
    cases body with
    | obj fields => exact absurd hobj (by simp [isJsonObj])
    | null => simp [ask_question, hdoc]
    | bool b => simp [ask_question, hdoc]
    | num n => simp [ask_question, hdoc]
    | str s => simp [ask_question, hdoc]
    | arr xs => simp [ask_question, hdoc]
  · cases hdoc : containsErr st.pdfText with
    | true => exact Or.inr (by simp [ask_question, hdoc])
    | false =>
      cases body with
      | obj fields => exact absurd hobj (by simp [isJsonObj])
      | null => exact Or.inl (by simp [ask_question, hdoc])
      | bool b => exact Or.inl (by simp [ask_question, hdoc])
      | num n => exact Or.inl (by simp [ask_question, hdoc])
      | str s => exact Or.inl (by simp [ask_question, hdoc])
      | arr xs => exact Or.inl (by simp [ask_question, hdoc])

/-- C10, witness for `non_object_body_raises` at the body `null`. -/
theorem non_object_body_raises_witness :
    ask_question ⟨"resume text", some "k"⟩ envHello Json.null =
      ⟨.exn, 0, ⟨"resume text", some "k"⟩⟩ ∧
    ((ask_question ⟨"resume text", some "k"⟩ envHello Json.null).outcome
        = .exn ∨
      (ask_question ⟨"resume text", some "k"⟩ envHello Json.null).outcome
        = .response 500 (.obj [("answer", .str "resume text")])) := by
  have h := non_object_body_raises ⟨"resume text", some "k"⟩ envHello
    Json.null (by decide)
  exact ⟨h.1 (by decide), h.2⟩

end RupiniResume
